import Mathlib

/-!
Shallow embedding of `src/Source/SceneManager.cpp` (CS-330 scene manager).

The program keeps two small registries inside the `SceneManager` class:
a fixed 16-slot texture table (`m_textureIDs` plus the counter
`m_loadedTextures`) and a growable material list (`m_objectMaterials`).
On top of them sit the lookup helpers (`FindTextureID`, `FindTextureSlot`,
`FindMaterial`), the texture loader (`CreateGLTexture`), the binding and
teardown loops (`BindGLTextures`, `DestroyGLTextures`), the transform
dispatcher (`SetTransformations` and the other `SetShader...` methods) and
the fixed scene script (`RenderScene` and the seven render passes).

Modelling conventions:
* machine floats become real numbers with the literal decimal value;
* OpenGL texture-name generation (`glGenTextures`) is modelled by a counter
  state: each call returns a fresh positive name;
* uniform uploads through the external `ShaderManager` become values of the
  trace type `UniformEvent`; GL calls made by the teardown loop become
  values of the trace type `GLCall`;
* the C++ local `OBJECT_MATERIAL material;` that `SetShaderMaterial` passes
  to `FindMaterial` is default-initialized in the embedding
  (`defaultObjectMaterial`); the scene script is single-threaded and
  deterministic, so this fixed value plays the role of the local's initial
  contents;
* the fixed-size array `m_textureIDs[16]` becomes a 16-element list; the
  unchecked store `m_textureIDs[m_loadedTextures] = ...` becomes `List.set`,
  which leaves the list unchanged when the index is out of range (the C++
  original has undefined behaviour there, and the claims proved below show
  the modelled program never reaches that case).
-/

/-- Three float components, as used for `glm::vec3` values. -/
structure Vec3 where
  x : ℝ
  y : ℝ
  z : ℝ

/-- One entry of the texture registry: a tag and the GL texture name
stored for it (`-1` is the constructor's sentinel). -/
structure TEXTURE_ID where
  tag : String
  ID : Int
deriving DecidableEq

/-- One entry of the material registry, mirroring `OBJECT_MATERIAL`. -/
structure OBJECT_MATERIAL where
  ambientColor : Vec3
  ambientStrength : ℝ
  diffuseColor : Vec3
  specularColor : Vec3
  shininess : ℝ
  tag : String

/-- The registry-carrying members of the `SceneManager` class. -/
structure SceneManagerState where
  m_textureIDs : List TEXTURE_ID
  m_loadedTextures : Nat
  m_objectMaterials : List OBJECT_MATERIAL

/-- State of the GL texture-name allocator: the last name handed out by
`glGenTextures`. Fresh names are `lastTextureName + 1, ...`, so every name
returned is positive and never reused. -/
structure GLState where
  lastTextureName : Nat
deriving DecidableEq

/-- One `glGenTextures(1, &id)` call: returns a fresh positive name. -/
def glGenTextures (gl : GLState) : Nat × GLState :=
  (gl.lastTextureName + 1, ⟨gl.lastTextureName + 1⟩)

/-- Calls the teardown loop can make on the GL texture API. The reference
teardown only ever emits `genTextures`; `deleteTextures` is the deletion
entry point it never uses. -/
inductive GLCall where
  | genTextures (name : Nat)
  | deleteTextures (name : Int)
deriving DecidableEq

/-- The `SceneManager` constructor: all 16 slots get tag `"/0"` and
ID `-1`, and `m_loadedTextures` starts at zero; the material list member
starts empty. -/
def initialSceneManagerState : SceneManagerState :=
  { m_textureIDs := List.replicate 16 { tag := "/0", ID := -1 }
    m_loadedTextures := 0
    m_objectMaterials := [] }

/-- Initial allocator state: no texture names handed out yet. -/
def initialGLState : GLState := ⟨0⟩

/-- Decoded image data as returned by `stbi_load` (width, height and the
channel count are all the loader looks at). -/
structure ImageData where
  width : Int
  height : Int
  channels : Int
deriving DecidableEq

/-- Write a fresh entry into slot `i` of the texture table (the store
`m_textureIDs[i].ID = id; m_textureIDs[i].tag = tag;`). -/
def setTextureEntry (entries : List TEXTURE_ID) (i : Nat) (tag : String)
    (id : Int) : List TEXTURE_ID :=
  entries.set i { tag := tag, ID := id }

/-- `SceneManager::CreateGLTexture`. The decoded image is passed in as
`image` (`none` models a failed `stbi_load`). On a decode failure the call
returns `false` and changes nothing. Otherwise a texture name is generated;
if the channel count is 3 or 4 the image is uploaded and the texture is
registered in slot `m_loadedTextures` (which is then incremented), else the
call returns `false` with the registry untouched (note the name generated
before the channel check is leaked, exactly as in the source). -/
def CreateGLTexture (image : Option ImageData) (tag : String)
    (st : SceneManagerState) (gl : GLState) :
    Bool × SceneManagerState × GLState :=
  match image with
  | none => (false, st, gl)
  | some img =>
    let gen := glGenTextures gl
    let textureID := gen.1
    let gl1 := gen.2
    if img.channels = 3 ∨ img.channels = 4 then
      (true,
        { st with
          m_textureIDs :=
            setTextureEntry st.m_textureIDs st.m_loadedTextures tag
              (textureID : Int)
          m_loadedTextures := st.m_loadedTextures + 1 },
        gl1)
    else
      (false, st, gl1)

/-- The scan loop of `SceneManager::FindTextureID`: walk the registered
entries, return the first matching entry's ID, or `-1` if none matches. -/
def findTextureIDLoop : List TEXTURE_ID → String → Int
  | [], _ => -1
  | e :: rest, tag =>
    if e.tag = tag then e.ID else findTextureIDLoop rest tag

/-- `SceneManager::FindTextureID`: linear scan over the first
`m_loadedTextures` slots, first match wins, sentinel `-1` otherwise. -/
def FindTextureID (st : SceneManagerState) (tag : String) : Int :=
  findTextureIDLoop (st.m_textureIDs.take st.m_loadedTextures) tag

/-- The scan loop of `SceneManager::FindTextureSlot`, carrying the running
`index`: returns the index of the first matching entry, or `-1`. -/
def findTextureSlotLoop : List TEXTURE_ID → String → Nat → Int
  | [], _, _ => -1
  | e :: rest, tag, index =>
    if e.tag = tag then (index : Int) else findTextureSlotLoop rest tag (index + 1)

/-- `SceneManager::FindTextureSlot`: linear scan over the first
`m_loadedTextures` slots, first match wins, sentinel `-1` otherwise. -/
def FindTextureSlot (st : SceneManagerState) (tag : String) : Int :=
  findTextureSlotLoop (st.m_textureIDs.take st.m_loadedTextures) tag 0

/-- `SceneManager::BindGLTextures`: for each `i < m_loadedTextures`, bind
the texture name stored in slot `i` to texture unit `i`. The result is the
list of `(unit, name)` bind calls issued, in order. -/
def BindGLTextures (st : SceneManagerState) : List (Nat × Int) :=
  (List.range st.m_loadedTextures).map
    (fun i => (i, (st.m_textureIDs.getD i { tag := "", ID := -1 }).ID))

/-- The loop body of `SceneManager::DestroyGLTextures`, iterating slots
`i, i+1, ...` for `n` steps: each step calls `glGenTextures` and stores the
freshly generated name into the slot's `ID` field. Returns the final
registry state, allocator state and the list of GL calls issued. -/
def destroyLoop : Nat → Nat → SceneManagerState → GLState →
    SceneManagerState × GLState × List GLCall
  | _, 0, st, gl => (st, gl, [])
  | i, n + 1, st, gl =>
    let gen := glGenTextures gl
    let st1 : SceneManagerState :=
      { st with
        m_textureIDs :=
          setTextureEntry st.m_textureIDs i
            ((st.m_textureIDs.getD i { tag := "", ID := -1 }).tag) (gen.1 : Int) }
    let rest := destroyLoop (i + 1) n st1 gen.2
    (rest.1, rest.2.1, GLCall.genTextures gen.1 :: rest.2.2)

/-- `SceneManager::DestroyGLTextures`: for each registered slot it calls
`glGenTextures` on the slot's `ID` field — allocating a new name — and it
never calls `glDeleteTextures`. -/
def DestroyGLTextures (st : SceneManagerState) (gl : GLState) :
    SceneManagerState × GLState × List GLCall :=
  destroyLoop 0 st.m_loadedTextures st gl

/-- The scan loop of `SceneManager::FindMaterial`: on the first entry whose
tag matches, the five property fields (not the tag) are copied into the
out-parameter `material` and the scan stops; otherwise `material` is left
as it was. -/
def findMaterialLoop : List OBJECT_MATERIAL → String → OBJECT_MATERIAL →
    OBJECT_MATERIAL
  | [], _, material => material
  | entry :: rest, tag, material =>
    if entry.tag = tag then
      { material with
        ambientColor := entry.ambientColor
        ambientStrength := entry.ambientStrength
        diffuseColor := entry.diffuseColor
        specularColor := entry.specularColor
        shininess := entry.shininess }
    else
      findMaterialLoop rest tag material

/-- `SceneManager::FindMaterial`: returns `false` (out-parameter untouched)
on an empty list; otherwise runs the scan loop and returns `true`
unconditionally — even when no tag matched. -/
def FindMaterial (materials : List OBJECT_MATERIAL) (tag : String)
    (material : OBJECT_MATERIAL) : Bool × OBJECT_MATERIAL :=
  if materials.length = 0 then
    (false, material)
  else
    (true, findMaterialLoop materials tag material)

/-- The `goldMaterial` record built in `DefineObjectMaterials`. -/
def goldMaterial : OBJECT_MATERIAL :=
  { ambientColor := ⟨0.2, 0.2, 0.2⟩
    ambientStrength := 0.3
    diffuseColor := ⟨0.2, 0.2, 0.2⟩
    specularColor := ⟨0.5, 0.5, 0.5⟩
    shininess := 25.0
    tag := "metal" }

/-- The `woodMaterial` record built in `DefineObjectMaterials`. -/
def woodMaterial : OBJECT_MATERIAL :=
  { ambientColor := ⟨0.1, 0.1, 0.1⟩
    ambientStrength := 0.2
    diffuseColor := ⟨0.3, 0.3, 0.3⟩
    specularColor := ⟨0.1, 0.1, 0.1⟩
    shininess := 0.3
    tag := "wood" }

/-- The `glassMaterial` record built in `DefineObjectMaterials`
(lines 476-482). It is constructed but never pushed onto
`m_objectMaterials`. -/
def glassMaterial : OBJECT_MATERIAL :=
  { ambientColor := ⟨0.4, 0.4, 0.4⟩
    ambientStrength := 0.3
    diffuseColor := ⟨0.3, 0.3, 0.3⟩
    specularColor := ⟨0.6, 0.6, 0.6⟩
    shininess := 85.0
    tag := "glass" }

/-- The `wallMaterial` record built in `DefineObjectMaterials`. -/
def wallMaterial : OBJECT_MATERIAL :=
  { ambientColor := ⟨0.1, 0.1, 0.1⟩
    ambientStrength := 0.2
    diffuseColor := ⟨0.5, 0.5, 0.5⟩
    specularColor := ⟨0.1, 0.1, 0.1⟩
    shininess := 0.0
    tag := "walls" }

/-- The `grapeMaterial` record built in `DefineObjectMaterials`. -/
def grapeMaterial : OBJECT_MATERIAL :=
  { ambientColor := ⟨0.1, 0.1, 0.1⟩
    ambientStrength := 0.1
    diffuseColor := ⟨0.3, 0.2, 0.3⟩
    specularColor := ⟨0.4, 0.2, 0.2⟩
    shininess := 0.5
    tag := "plastic" }

/-- `SceneManager::DefineObjectMaterials` as a function on the material
list: it pushes `goldMaterial`, `woodMaterial`, `wallMaterial` and
`grapeMaterial` in this order; `glassMaterial` is constructed between the
`woodMaterial` and `wallMaterial` pushes but no `push_back` is executed for
it. -/
def DefineObjectMaterials (m_objectMaterials : List OBJECT_MATERIAL) :
    List OBJECT_MATERIAL :=
  (((m_objectMaterials ++ [goldMaterial]) ++ [woodMaterial]) ++
    [wallMaterial]) ++ [grapeMaterial]

/-- Four-by-four real matrix, the embedding of `glm::mat4` (glm stores
matrices column-major, but as linear maps on column vectors they are the
matrices written here). -/
abbrev Mat4 := Matrix (Fin 4) (Fin 4) ℝ

/-- `glm::radians`: degrees to radians. -/
noncomputable def glmRadians (degrees : ℝ) : ℝ := degrees * (Real.pi / 180)

/-- `glm::scale(v)`: the homogeneous scaling matrix. -/
def glmScale (v : Vec3) : Mat4 :=
  Matrix.of
    ![![v.x, 0, 0, 0],
      ![0, v.y, 0, 0],
      ![0, 0, v.z, 0],
      ![0, 0, 0, 1]]

/-- `glm::translate(v)`: the homogeneous translation matrix. -/
def glmTranslate (v : Vec3) : Mat4 :=
  Matrix.of
    ![![1, 0, 0, v.x],
      ![0, 1, 0, v.y],
      ![0, 0, 1, v.z],
      ![0, 0, 0, 1]]

/-- `glm::rotate(angle, vec3(1,0,0))`: rotation about the X axis. -/
noncomputable def glmRotateX (angle : ℝ) : Mat4 :=
  Matrix.of
    ![![1, 0, 0, 0],
      ![0, Real.cos angle, -Real.sin angle, 0],
      ![0, Real.sin angle, Real.cos angle, 0],
      ![0, 0, 0, 1]]

/-- `glm::rotate(angle, vec3(0,1,0))`: rotation about the Y axis. -/
noncomputable def glmRotateY (angle : ℝ) : Mat4 :=
  Matrix.of
    ![![Real.cos angle, 0, Real.sin angle, 0],
      ![0, 1, 0, 0],
      ![-Real.sin angle, 0, Real.cos angle, 0],
      ![0, 0, 0, 1]]

/-- `glm::rotate(angle, vec3(0,0,1))`: rotation about the Z axis. -/
noncomputable def glmRotateZ (angle : ℝ) : Mat4 :=
  Matrix.of
    ![![Real.cos angle, -Real.sin angle, 0, 0],
      ![Real.sin angle, Real.cos angle, 0, 0],
      ![0, 0, 1, 0],
      ![0, 0, 0, 1]]

/-- The model matrix built by `SceneManager::SetTransformations`:
`modelView = translation * rotationX * rotationY * rotationZ * scale`,
with the rotation angles given in degrees. -/
noncomputable def modelMatrix (scaleXYZ : Vec3)
    (XrotationDegrees YrotationDegrees ZrotationDegrees : ℝ)
    (positionXYZ : Vec3) : Mat4 :=
  glmTranslate positionXYZ *
    glmRotateX (glmRadians XrotationDegrees) *
    glmRotateY (glmRadians YrotationDegrees) *
    glmRotateZ (glmRadians ZrotationDegrees) *
    glmScale scaleXYZ

/-- Uniform uploads pushed through the external `ShaderManager`. Each
constructor mirrors one of its setter entry points. -/
inductive UniformEvent where
  | setMat4Value (name : String) (value : Mat4)
  | setVec4Value (name : String) (value : Fin 4 → ℝ)
  | setVec3Value (name : String) (value : Vec3)
  | setVec2Value (name : String) (u v : ℝ)
  | setFloatValue (name : String) (value : ℝ)
  | setIntValue (name : String) (value : Int)
  | setSampler2DValue (name : String) (value : Int)

/-- The global uniform-name constant `g_ModelName`. -/
def g_ModelName : String := "model"

/-- The global uniform-name constant `g_ColorValueName`. -/
def g_ColorValueName : String := "objectColor"

/-- The global uniform-name constant `g_TextureValueName`. -/
def g_TextureValueName : String := "objectTexture"

/-- The global uniform-name constant `g_UseTextureName`. -/
def g_UseTextureName : String := "bUseTexture"

/-- `SceneManager::SetTransformations`: build the model matrix and upload
it as the `"model"` uniform. The class state is read, never written. -/
noncomputable def SetTransformations (scaleXYZ : Vec3)
    (XrotationDegrees YrotationDegrees ZrotationDegrees : ℝ)
    (positionXYZ : Vec3) (st : SceneManagerState) :
    List UniformEvent × SceneManagerState :=
  ([UniformEvent.setMat4Value g_ModelName
      (modelMatrix scaleXYZ XrotationDegrees YrotationDegrees
        ZrotationDegrees positionXYZ)], st)

/-- `SceneManager::SetShaderColor`: disable texturing
(`setIntValue(bUseTexture, false)`, the C++ `false` converting to `0`) and
upload the flat color. -/
def SetShaderColor (redColorValue greenColorValue blueColorValue
    alphaValue : ℝ) (st : SceneManagerState) :
    List UniformEvent × SceneManagerState :=
  ([UniformEvent.setIntValue g_UseTextureName 0,
    UniformEvent.setVec4Value g_ColorValueName
      ![redColorValue, greenColorValue, blueColorValue, alphaValue]], st)

/-- `SceneManager::SetShaderTexture`: enable texturing and upload the
texture unit resolved by `FindTextureSlot` (the `-1` sentinel included,
when the tag is unknown). -/
def SetShaderTexture (textureTag : String) (st : SceneManagerState) :
    List UniformEvent × SceneManagerState :=
  ([UniformEvent.setIntValue g_UseTextureName 1,
    UniformEvent.setSampler2DValue g_TextureValueName
      (FindTextureSlot st textureTag)], st)

/-- `SceneManager::SetTextureUVScale`: upload the tiling factors. -/
def SetTextureUVScale (u v : ℝ) (st : SceneManagerState) :
    List UniformEvent × SceneManagerState :=
  ([UniformEvent.setVec2Value "UVscale" u v], st)

/-- Initial contents of the local `OBJECT_MATERIAL material;` declared in
`SceneManager::SetShaderMaterial`. The C++ default-initialization leaves
the scalar fields indeterminate; the embedding fixes them at zero. -/
def defaultObjectMaterial : OBJECT_MATERIAL :=
  { ambientColor := ⟨0, 0, 0⟩
    ambientStrength := 0
    diffuseColor := ⟨0, 0, 0⟩
    specularColor := ⟨0, 0, 0⟩
    shininess := 0
    tag := "" }

/-- `SceneManager::SetShaderMaterial`: when the material list is non-empty,
look the tag up with `FindMaterial` and — when it reports found — upload
the five fields of the out-parameter. -/
def SetShaderMaterial (materialTag : String) (st : SceneManagerState) :
    List UniformEvent × SceneManagerState :=
  if 0 < st.m_objectMaterials.length then
    let r := FindMaterial st.m_objectMaterials materialTag
      defaultObjectMaterial
    if r.1 then
      ([UniformEvent.setVec3Value "material.ambientColor" r.2.ambientColor,
        UniformEvent.setFloatValue "material.ambientStrength"
          r.2.ambientStrength,
        UniformEvent.setVec3Value "material.diffuseColor" r.2.diffuseColor,
        UniformEvent.setVec3Value "material.specularColor"
          r.2.specularColor,
        UniformEvent.setFloatValue "material.shininess" r.2.shininess], st)
    else
      ([], st)
  else
    ([], st)

/-- The primitive mesh kinds drawn by the scene script (the
`ShapeMeshes::Draw...Mesh` entry points of the external mesh library). -/
inductive MeshKind where
  | plane
  | box
  | cylinder
  | taperedCylinder
  | sphere
  | torus
  | prism
deriving DecidableEq

/-- One call of a render pass. Each constructor mirrors one of the
`SceneManager` methods invoked by the scene script (or a mesh draw). -/
inductive SceneCommand where
  | transform (scaleXYZ : Vec3)
      (XrotationDegrees YrotationDegrees ZrotationDegrees : ℝ)
      (positionXYZ : Vec3)
  | color (r g b a : ℝ)
  | texture (tag : String)
  | uvScale (u v : ℝ)
  | material (tag : String)
  | draw (mesh : MeshKind)

/-- Execute one scene-script call against the class state: dispatch to the
corresponding `SceneManager` method. A mesh draw issues no uniform
upload. -/
noncomputable def executeCommand (st : SceneManagerState) :
    SceneCommand → List UniformEvent × SceneManagerState
  | SceneCommand.transform s xr yr zr p => SetTransformations s xr yr zr p st
  | SceneCommand.color r g b a => SetShaderColor r g b a st
  | SceneCommand.texture tag => SetShaderTexture tag st
  | SceneCommand.uvScale u v => SetTextureUVScale u v st
  | SceneCommand.material tag => SetShaderMaterial tag st
  | SceneCommand.draw _ => ([], st)

/-- Execute a scene script in order, threading the class state through
every call and concatenating the uniform uploads. -/
noncomputable def executeScript (st : SceneManagerState) :
    List SceneCommand → List UniformEvent × SceneManagerState
  | [] => ([], st)
  | c :: rest =>
    let r := executeCommand st c
    let r2 := executeScript r.2 rest
    (r.1 ++ r2.1, r2.2)

/-- The fixed call sequence of `SceneManager::RenderDeskandwalls`. -/
def renderDeskandwallsScript : List SceneCommand :=
  [SceneCommand.transform ⟨20.0, 1.0, 10.0⟩ 90.0 0.0 0.0 ⟨0.0, 10.0, -10.0⟩,
   SceneCommand.texture "wall",
   SceneCommand.uvScale 1.0 1.0,
   SceneCommand.material "walls",
   SceneCommand.draw MeshKind.plane,
   SceneCommand.transform ⟨10.0, 1.0, 10.0⟩ 0.0 0.0 90.0 ⟨20.0, 10.0, 0.0⟩,
   SceneCommand.texture "wall",
   SceneCommand.uvScale 1.0 1.0,
   SceneCommand.material "walls",
   SceneCommand.draw MeshKind.plane,
   SceneCommand.transform ⟨20.0, 1.0, 10.0⟩ 0.0 0.0 0.0 ⟨0.0, 0.0, 0.0⟩,
   SceneCommand.texture "wood",
   SceneCommand.uvScale 1.0 1.0,
   SceneCommand.material "wood",
   SceneCommand.draw MeshKind.plane]

/-- The fixed call sequence of `SceneManager::RenderKeyboardandmat` (note
the first block sets two textures and no material, as in the source). -/
def renderKeyboardandmatScript : List SceneCommand :=
  [SceneCommand.transform ⟨31.0, 0.1, 10.0⟩ 0.0 0.0 0.0 ⟨-4.0, 0.1, 4.5⟩,
   SceneCommand.texture "pad",
   SceneCommand.uvScale 1.0 1.0,
   SceneCommand.texture "pad2",
   SceneCommand.uvScale 1.0 1.0,
   SceneCommand.draw MeshKind.box,
   SceneCommand.transform ⟨14.0, 0.5, 5.0⟩ 0.0 0.0 0.0 ⟨-8.0, 0.3, 4.5⟩,
   SceneCommand.texture "keyboard",
   SceneCommand.uvScale 1.0 1.0,
   SceneCommand.material "plastic",
   SceneCommand.draw MeshKind.box,
   SceneCommand.transform ⟨1.0, 14.0, 0.5⟩ 90.0 180.0 90.0 ⟨-8.0, 0.3, 7.0⟩,
   SceneCommand.texture "plastic",
   SceneCommand.uvScale 1.0 1.0,
   SceneCommand.material "plastic",
   SceneCommand.draw MeshKind.prism,
   SceneCommand.transform ⟨14.01, 0.49, 5.01⟩ 0.0 0.0 0.0 ⟨-8.0, 0.3, 4.5⟩,
   SceneCommand.texture "plastic",
   SceneCommand.uvScale 1.0 1.0,
   SceneCommand.material "plastic",
   SceneCommand.draw MeshKind.box]

/-- The fixed call sequence of `SceneManager::RenderMouse`. -/
def renderMouseScript : List SceneCommand :=
  [SceneCommand.transform ⟨1.0, 0.3, 2.0⟩ 0.0 0.0 0.0 ⟨2.0, 0.2, 4.5⟩,
   SceneCommand.texture "blackpl",
   SceneCommand.uvScale 1.0 1.0,
   SceneCommand.material "plastic",
   SceneCommand.draw MeshKind.cylinder,
   SceneCommand.transform ⟨1.0, 0.5, 2.0⟩ 0.0 0.0 0.0 ⟨2.0, 0.5, 4.5⟩,
   SceneCommand.texture "blackpl",
   SceneCommand.uvScale 1.0 1.0,
   SceneCommand.material "plastic",
   SceneCommand.draw MeshKind.sphere,
   SceneCommand.transform ⟨0.35, 0.35, 0.35⟩ 0.0 90.0 0.0 ⟨2.0, 0.67, 3.7⟩,
   SceneCommand.color 0.071 0.071 0.071 1,
   SceneCommand.draw MeshKind.torus,
   SceneCommand.transform ⟨0.15, 0.15, 0.15⟩ 180.0 0.0 0.0 ⟨2.0, 0.95, 4.2⟩,
   SceneCommand.color 0.071 0.071 0.071 1,
   SceneCommand.draw MeshKind.box,
   SceneCommand.transform ⟨0.15, 0.3, 0.15⟩ 90.0 0.0 0.0 ⟨1.15, 0.7, 4.9⟩,
   SceneCommand.color 0.071 0.071 0.071 1,
   SceneCommand.draw MeshKind.box,
   SceneCommand.transform ⟨0.15, 0.3, 0.15⟩ 90.0 0.0 0.0 ⟨1.14, 0.7, 4.5⟩,
   SceneCommand.color 0.071 0.071 0.071 1,
   SceneCommand.draw MeshKind.box,
   SceneCommand.transform ⟨1.0, 1.8, 0.5⟩ 90.0 0.0 0.0 ⟨2.0, 0.1, 4.5⟩,
   SceneCommand.color 0.949 0.184 0.863 1,
   SceneCommand.draw MeshKind.torus]

/-- The fixed call sequence of `SceneManager::RenderPCexterior`. -/
def renderPCexteriorScript : List SceneCommand :=
  [SceneCommand.transform ⟨0.15, 0.63, 0.5⟩ 0.0 0.0 0.0 ⟨11.0, 0.1, 8.5⟩,
   SceneCommand.color 0.071 0.071 0.071 1,
   SceneCommand.material "plastic",
   SceneCommand.draw MeshKind.cylinder,
   SceneCommand.transform ⟨0.15, 0.63, 0.5⟩ 0.0 0.0 0.0 ⟨11.0, 0.0, -4.5⟩,
   SceneCommand.color 0.071 0.071 0.071 1,
   SceneCommand.material "plastic",
   SceneCommand.draw MeshKind.cylinder,
   SceneCommand.transform ⟨0.15, 0.63, 0.5⟩ 0.0 0.0 0.0 ⟨16.0, 0.0, 8.5⟩,
   SceneCommand.color 0.071 0.071 0.071 1,
   SceneCommand.material "plastic",
   SceneCommand.draw MeshKind.cylinder,
   SceneCommand.transform ⟨0.15, 0.63, 0.5⟩ 0.0 0.0 0.0 ⟨16.0, 0.0, -4.5⟩,
   SceneCommand.color 0.071 0.071 0.071 1,
   SceneCommand.material "plastic",
   SceneCommand.draw MeshKind.cylinder,
   SceneCommand.transform ⟨6.0, 0.3, 14.8⟩ 0.0 0.0 0.0 ⟨13.5, 0.71, 1.9⟩,
   SceneCommand.texture "metal",
   SceneCommand.uvScale 1.0 1.0,
   SceneCommand.material "metal",
   SceneCommand.draw MeshKind.box,
   SceneCommand.transform ⟨6.0, 0.3, 14.8⟩ 0.0 0.0 0.0 ⟨13.5, 10.79, 1.9⟩,
   SceneCommand.texture "metal",
   SceneCommand.uvScale 1.0 1.0,
   SceneCommand.material "metal",
   SceneCommand.draw MeshKind.box,
   SceneCommand.transform ⟨6.0, 0.3, 9.8⟩ 90.0 0.0 0.0 ⟨13.5, 5.75, -5.349⟩,
   SceneCommand.texture "metal",
   SceneCommand.uvScale 1.0 1.0,
   SceneCommand.material "metal",
   SceneCommand.draw MeshKind.box,
   SceneCommand.transform ⟨14.5, 0.3, 9.8⟩ 90.0 0.0 90.0 ⟨16.35, 5.75, 2.05⟩,
   SceneCommand.texture "metal",
   SceneCommand.uvScale 1.0 1.0,
   SceneCommand.material "metal",
   SceneCommand.draw MeshKind.box,
   SceneCommand.transform ⟨7.25, 0.25, 7.25⟩ 90.0 0.0 90.0 ⟨16.3, 6.3, -1.55⟩,
   SceneCommand.texture "mb",
   SceneCommand.uvScale 1.0 1.0,
   SceneCommand.material "metal",
   SceneCommand.draw MeshKind.box,
   SceneCommand.transform ⟨5.404, 0.3, 9.8⟩ 90.0 0.0 0.0 ⟨13.5, 5.75, 8.649⟩,
   SceneCommand.texture "metal",
   SceneCommand.uvScale 1.0 1.0,
   SceneCommand.material "metal",
   SceneCommand.draw MeshKind.box]

/-- The fixed call sequence of `SceneManager::RenderPCinterior`. -/
def renderPCinteriorScript : List SceneCommand :=
  [SceneCommand.transform ⟨1.3, 1.3, 1.3⟩ 0.0 0.0 90.0 ⟨16.3, 7.4, -1.7⟩,
   SceneCommand.texture "plastic",
   SceneCommand.uvScale 1.0 1.0,
   SceneCommand.material "plastic",
   SceneCommand.draw MeshKind.cylinder,
   SceneCommand.transform ⟨1.0, 1.0, 1.0⟩ 0.0 0.0 90.0 ⟨15.96, 7.4, -1.7⟩,
   SceneCommand.texture "PKMN",
   SceneCommand.uvScale 1.0 1.0,
   SceneCommand.material "plastic",
   SceneCommand.draw MeshKind.cylinder,
   SceneCommand.transform ⟨1.0, 1.0, 1.0⟩ 90.0 90.0 90.0 ⟨15.1, 7.4, -1.7⟩,
   SceneCommand.texture "plastic",
   SceneCommand.uvScale 1.0 1.0,
   SceneCommand.material "plastic",
   SceneCommand.draw MeshKind.torus,
   SceneCommand.transform ⟨4.0, 1.0, 0.2⟩ 0.0 0.0 90.0 ⟨15.8, 7.49, 0.03⟩,
   SceneCommand.texture "ram",
   SceneCommand.uvScale 1.0 1.0,
   SceneCommand.material "plastic",
   SceneCommand.draw MeshKind.box,
   SceneCommand.transform ⟨4.0, 1.0, 0.2⟩ 0.0 0.0 90.0 ⟨15.8, 7.49, 0.58⟩,
   SceneCommand.texture "ram",
   SceneCommand.uvScale 1.0 1.0,
   SceneCommand.material "plastic",
   SceneCommand.draw MeshKind.box,
   SceneCommand.transform ⟨0.2, 4.0, 0.2⟩ 0.0 0.0 0.0 ⟨15.2, 7.49, 0.58⟩,
   SceneCommand.texture "rgb",
   SceneCommand.uvScale 1.0 1.0,
   SceneCommand.material "plastic",
   SceneCommand.draw MeshKind.box,
   SceneCommand.transform ⟨0.2, 4.0, 0.2⟩ 0.0 0.0 0.0 ⟨15.2, 7.49, 0.03⟩,
   SceneCommand.texture "rgb",
   SceneCommand.uvScale 1.0 1.0,
   SceneCommand.material "plastic",
   SceneCommand.draw MeshKind.box,
   SceneCommand.transform ⟨1.2, 4.6, 0.9⟩ 0.0 90.0 0.0 ⟨15.8, 7.65, -4.58⟩,
   SceneCommand.texture "mbb",
   SceneCommand.uvScale 1.0 1.0,
   SceneCommand.material "metal",
   SceneCommand.draw MeshKind.box,
   SceneCommand.transform ⟨1.3, 4.7, 1.0⟩ 0.0 90.0 0.0 ⟨15.86, 7.65, -4.58⟩,
   SceneCommand.texture "metal",
   SceneCommand.uvScale 1.0 1.0,
   SceneCommand.material "metal",
   SceneCommand.draw MeshKind.box,
   SceneCommand.transform ⟨1.2, 1.2, 2.0⟩ 0.0 0.0 90.0 ⟨13.5, 5.75, 8.649⟩,
   SceneCommand.texture "pink",
   SceneCommand.uvScale 1.0 1.0,
   SceneCommand.material "wood",
   SceneCommand.draw MeshKind.torus,
   SceneCommand.transform ⟨1.2, 1.2, 2.0⟩ 0.0 0.0 90.0 ⟨13.5, 9.0, 8.649⟩,
   SceneCommand.texture "blue",
   SceneCommand.uvScale 1.0 1.0,
   SceneCommand.material "wood",
   SceneCommand.draw MeshKind.torus,
   SceneCommand.transform ⟨1.2, 1.2, 2.0⟩ 0.0 0.0 90.0 ⟨13.5, 2.5, 8.649⟩,
   SceneCommand.texture "blue",
   SceneCommand.uvScale 1.0 1.0,
   SceneCommand.material "wood",
   SceneCommand.draw MeshKind.torus,
   SceneCommand.transform ⟨5.0, 2.0, 12.0⟩ 0.0 0.0 0.0 ⟨13.8, 1.7, 0.7⟩,
   SceneCommand.texture "metal",
   SceneCommand.uvScale 1.0 1.0,
   SceneCommand.material "metal",
   SceneCommand.draw MeshKind.box]

/-- The fixed call sequence of `SceneManager::RenderMonitor`. -/
def renderMonitorScript : List SceneCommand :=
  [SceneCommand.transform ⟨9.0, 0.5, 5.0⟩ 0.0 180.0 0.0 ⟨-4.0, 0.3, -3.5⟩,
   SceneCommand.texture "plastic",
   SceneCommand.uvScale 1.0 1.0,
   SceneCommand.material "plastic",
   SceneCommand.draw MeshKind.prism,
   SceneCommand.transform ⟨1.15, 6.3, 1.15⟩ 0.0 45.0 0.0 ⟨-4.0, 3.3, -3.5⟩,
   SceneCommand.texture "plastic",
   SceneCommand.uvScale 1.0 1.0,
   SceneCommand.material "plastic",
   SceneCommand.draw MeshKind.box,
   SceneCommand.transform ⟨1.0, 1.0, 0.85⟩ 0.0 0.0 0.0 ⟨-4.0, 5.95, -2.85⟩,
   SceneCommand.texture "plastic",
   SceneCommand.uvScale 1.0 1.0,
   SceneCommand.material "plastic",
   SceneCommand.draw MeshKind.box,
   SceneCommand.transform ⟨12.0, 0.1, 6.0⟩ 90.0 0.0 0.0 ⟨-4.0, 5.95, -2.223⟩,
   SceneCommand.texture "screen",
   SceneCommand.uvScale 1.0 1.0,
   SceneCommand.material "metal",
   SceneCommand.draw MeshKind.box,
   SceneCommand.transform ⟨12.25, 0.25, 6.25⟩ 90.0 0.0 0.0 ⟨-4.0, 5.95, -2.3⟩,
   SceneCommand.texture "plastic",
   SceneCommand.uvScale 1.0 1.0,
   SceneCommand.material "plastic",
   SceneCommand.draw MeshKind.box]

/-- The fixed call sequence of `SceneManager::RenderGlass`: the two glass
panes are drawn with a flat translucent color and the material tag
`"glass"`. -/
def renderGlassScript : List SceneCommand :=
  [SceneCommand.transform ⟨14.5, 0.3, 9.8⟩ 90.0 0.0 90.0 ⟨10.65, 5.75, 2.05⟩,
   SceneCommand.color 0.7 0.7 0.8 0.3,
   SceneCommand.material "glass",
   SceneCommand.draw MeshKind.box,
   SceneCommand.transform ⟨5.404, 0.05, 9.8⟩ 90.0 0.0 0.0 ⟨13.5, 5.75, 9.289⟩,
   SceneCommand.color 0.7 0.7 0.8 0.3,
   SceneCommand.material "glass",
   SceneCommand.draw MeshKind.box]

/-- The whole fixed sequence replayed by `SceneManager::RenderScene`: the
seven passes in their call order. -/
def renderSceneScript : List SceneCommand :=
  renderDeskandwallsScript ++ renderKeyboardandmatScript ++
    renderMouseScript ++ renderPCexteriorScript ++ renderPCinteriorScript ++
    renderMonitorScript ++ renderGlassScript

/-- `SceneManager::RenderScene`: execute the fixed scene script against the
current registries, producing the uniform-upload trace. -/
noncomputable def RenderScene (st : SceneManagerState) :
    List UniformEvent × SceneManagerState :=
  executeScript st renderSceneScript

/-- The material tags a script requests, in order (one entry per
`SetShaderMaterial` call). -/
def materialRequests (script : List SceneCommand) : List String :=
  script.filterMap (fun c =>
    match c with
    | SceneCommand.material tag => some tag
    | _ => none)

/-- The `(filename, tag)` pairs of the sixteen `CreateGLTexture` calls
issued by `SceneManager::LoadSceneTextures`, in call order. -/
def loadSceneTexturesCallList : List (String × String) :=
  [("textures/plastic_dark_seamless.jpg", "plastic"),
   ("textures/wood_knots_seamlessr.jpg", "wood"),
   ("textures/greywall.jpg", "wall"),
   ("textures/rubber_circles_seamless.jpg", "pad"),
   ("textures/screen_wallpaper_2.jpg", "pad2"),
   ("textures/PCscreen.jpg", "screen"),
   ("textures/blackmetal.jpg", "metal"),
   ("textures/motherboard.jpg", "mb"),
   ("textures/Riolu.jpg", "PKMN"),
   ("textures/rainbowFade.jpg", "rgb"),
   ("textures/motherboardback.jpeg", "mbb"),
   ("textures/blue.jpg", "blue"),
   ("textures/pink.jpg", "pink"),
   ("textures/Keyboardtop.jpg", "keyboard"),
   ("textures/RAMside.jpg", "ram"),
   ("textures/blackplasticmaterial.jpg", "blackpl")]

/-- Run a sequence of `CreateGLTexture` calls in order, threading the class
and allocator state (the returned `bReturn` of each call is overwritten by
the next, as in the source). `decode` models the external image decoder:
what `stbi_load` yields for each filename. -/
def runCreateCalls (decode : String → Option ImageData) :
    List (String × String) → SceneManagerState → GLState →
    SceneManagerState × GLState
  | [], st, gl => (st, gl)
  | (filename, tag) :: rest, st, gl =>
    let r := CreateGLTexture (decode filename) tag st gl
    runCreateCalls decode rest r.2.1 r.2.2

/-- `SceneManager::LoadSceneTextures`: the sixteen `CreateGLTexture` calls
followed by `BindGLTextures`. Returns the final class state, the allocator
state and the bind calls issued. -/
def LoadSceneTextures (decode : String → Option ImageData)
    (st : SceneManagerState) (gl : GLState) :
    SceneManagerState × GLState × List (Nat × Int) :=
  let r := runCreateCalls decode loadSceneTexturesCallList st gl
  (r.1, r.2, BindGLTextures r.1)

/-- Material record used as the first duplicate definition in the witness
of the first-match-wins theorem. -/
def sampleMaterialA : OBJECT_MATERIAL :=
  { ambientColor := ⟨1, 2, 3⟩
    ambientStrength := 4
    diffuseColor := ⟨5, 6, 7⟩
    specularColor := ⟨8, 9, 10⟩
    shininess := 11
    tag := "dup" }

/-- Material record used as the second duplicate definition in the witness
of the first-match-wins theorem. -/
def sampleMaterialB : OBJECT_MATERIAL :=
  { ambientColor := ⟨21, 22, 23⟩
    ambientStrength := 24
    diffuseColor := ⟨25, 26, 27⟩
    specularColor := ⟨28, 29, 30⟩
    shininess := 31
    tag := "dup" }

/-- Texture registry state used to instantiate the binding and teardown
theorems: two loaded entries with names 5 and 7. -/
def sampleTextureState : SceneManagerState :=
  { m_textureIDs := [⟨"pad", 5⟩, ⟨"wood", 7⟩]
    m_loadedTextures := 2
    m_objectMaterials := [] }

/-! Helper lemmas about the registry scans. -/

theorem findMaterialLoop_append_of_no_match (l l2 : List OBJECT_MATERIAL)
    (tag : String) (material : OBJECT_MATERIAL)
    (h : ∀ m ∈ l, m.tag ≠ tag) :
    findMaterialLoop (l ++ l2) tag material =
      findMaterialLoop l2 tag material := by
  induction l with
  | nil => rfl
  | cons a l ih =>
    simp only [List.cons_append, findMaterialLoop]
    rw [if_neg (h a (by simp))]
    exact ih (fun m hm => h m (by simp [hm]))

theorem take_set_succ {α : Type} (l : List α) (n : Nat) (a : α)
    (h : n < l.length) : (l.set n a).take (n + 1) = l.take n ++ [a] := by
  induction l generalizing n with
  | nil => exact absurd h (Nat.not_lt_zero n)
  | cons b bs ih =>
    cases n with
    | zero => rfl
    | succ m => exact congrArg (List.cons b) (ih m (by simpa using h))

theorem findTextureIDLoop_pos (l : List TEXTURE_ID) (tag : String)
    (hall : ∀ e ∈ l, 1 ≤ e.ID) (hex : ∃ e ∈ l, e.tag = tag) :
    1 ≤ findTextureIDLoop l tag := by
  induction l with
  | nil => simp at hex
  | cons e rest ih =>
    by_cases h : e.tag = tag
    · simpa [findTextureIDLoop, h] using hall e (by simp)
    · simp only [findTextureIDLoop, if_neg h]
      refine ih (fun x hx => hall x (by simp [hx])) ?_
      rcases hex with ⟨x, hx, hxe⟩
      rcases List.mem_cons.mp hx with rfl | hx2
      · exact absurd hxe h
      · exact ⟨x, hx2, hxe⟩

theorem findTextureSlotLoop_bounds (l : List TEXTURE_ID) (tag : String) :
    ∀ index : Nat, (∃ e ∈ l, e.tag = tag) →
      (index : Int) ≤ findTextureSlotLoop l tag index ∧
        findTextureSlotLoop l tag index < (index : Int) + l.length := by
  induction l with
  | nil => intro i h; simp at h
  | cons e rest ih =>
    intro index hex
    by_cases h : e.tag = tag
    · simp only [findTextureSlotLoop, if_pos h, List.length_cons]
      constructor
      · exact le_refl _
      · push_cast
        omega
    · simp only [findTextureSlotLoop, if_neg h, List.length_cons]
      have hex2 : ∃ x ∈ rest, x.tag = tag := by
        rcases hex with ⟨x, hx, hxe⟩
        rcases List.mem_cons.mp hx with rfl | hx2
        · exact absurd hxe h
        · exact ⟨x, hx2, hxe⟩
      have hrec := ih (index + 1) hex2
      push_cast at hrec ⊢
      omega

theorem destroyLoop_trace (n : Nat) :
    ∀ (i : Nat) (st : SceneManagerState) (gl : GLState),
      (destroyLoop i n st gl).2.2 =
        (List.range n).map
          (fun k => GLCall.genTextures (gl.lastTextureName + k + 1)) := by
  induction n with
  | zero => intro i st gl; rfl
  | succ m ih =>
    intro i st gl
    simp only [destroyLoop, glGenTextures]
    rw [ih]
    rw [List.range_succ_eq_map]
    simp only [List.map_cons, List.map_map]
    refine congrArg₂ List.cons (by rw [Nat.add_zero]) ?_
    refine List.map_congr_left fun k _ => ?_
    have harith : gl.lastTextureName + 1 + k + 1 =
        gl.lastTextureName + (k + 1) + 1 := by omega
    simp [Function.comp, harith]

theorem destroyLoop_lastName (n : Nat) :
    ∀ (i : Nat) (st : SceneManagerState) (gl : GLState),
      (destroyLoop i n st gl).2.1.lastTextureName =
        gl.lastTextureName + n := by
  induction n with
  | zero => intro i st gl; rfl
  | succ m ih =>
    intro i st gl
    simp only [destroyLoop, glGenTextures]
    rw [ih]
    show gl.lastTextureName + 1 + m = gl.lastTextureName + (m + 1)
    omega

theorem destroyLoop_length (n : Nat) :
    ∀ (i : Nat) (st : SceneManagerState) (gl : GLState),
      (destroyLoop i n st gl).1.m_textureIDs.length =
        st.m_textureIDs.length := by
  induction n with
  | zero => intro i st gl; rfl
  | succ m ih =>
    intro i st gl
    simp only [destroyLoop, glGenTextures]
    rw [ih]
    simp [setTextureEntry]

theorem destroyLoop_getD_lt (n : Nat) :
    ∀ (i : Nat) (st : SceneManagerState) (gl : GLState) (j : Nat), j < i →
      (destroyLoop i n st gl).1.m_textureIDs.getD j ⟨"", -1⟩ =
        st.m_textureIDs.getD j ⟨"", -1⟩ := by
  induction n with
  | zero => intro i st gl j _; rfl
  | succ m ih =>
    intro i st gl j hj
    simp only [destroyLoop, glGenTextures]
    rw [ih (i + 1) _ _ j (by omega)]
    simp only [setTextureEntry, List.getD, List.get?_eq_getElem?]
    rw [List.getElem?_set_ne (show i ≠ j by omega)]

theorem destroyLoop_getD_fresh (n : Nat) :
    ∀ (i : Nat) (st : SceneManagerState) (gl : GLState) (k : Nat), k < n →
      i + n ≤ st.m_textureIDs.length →
      ((destroyLoop i n st gl).1.m_textureIDs.getD (i + k) ⟨"", -1⟩).ID =
        ((gl.lastTextureName + k + 1 : Nat) : Int) := by
  induction n with
  | zero => intro i st gl k hk _; exact absurd hk (Nat.not_lt_zero k)
  | succ m ih =>
    intro i st gl k hk hlen
    cases k with
    | zero =>
      simp only [destroyLoop, glGenTextures, Nat.add_zero]
      rw [destroyLoop_getD_lt m (i + 1) _ _ i (by omega)]
      simp only [setTextureEntry, List.getD, List.get?_eq_getElem?]
      rw [List.getElem?_set_eq_of_lt _ (by omega)]
      rfl
    | succ j =>
      simp only [destroyLoop, glGenTextures]
      have hidx : i + (j + 1) = (i + 1) + j := by omega
      rw [hidx, ih (i + 1) _ _ j (by omega) (by simp [setTextureEntry]; omega)]
      have harith : gl.lastTextureName + 1 + j + 1 =
          gl.lastTextureName + (j + 1) + 1 := by omega
      rw [harith]

theorem createGLTexture_loaded_le (image : Option ImageData) (tag : String)
    (st : SceneManagerState) (gl : GLState) :
    (CreateGLTexture image tag st gl).2.1.m_loadedTextures ≤
      st.m_loadedTextures + 1 := by
  cases image with
  | none => exact Nat.le_succ _
  | some img =>
    simp only [CreateGLTexture]
    split
    · exact le_refl _
    · exact Nat.le_succ _

theorem createGLTexture_length (image : Option ImageData) (tag : String)
    (st : SceneManagerState) (gl : GLState) :
    (CreateGLTexture image tag st gl).2.1.m_textureIDs.length =
      st.m_textureIDs.length := by
  cases image with
  | none => rfl
  | some img =>
    simp only [CreateGLTexture]
    split
    · simp [setTextureEntry]
    · rfl

theorem runCreateCalls_loaded_le (decode : String → Option ImageData)
    (calls : List (String × String)) :
    ∀ (st : SceneManagerState) (gl : GLState),
      (runCreateCalls decode calls st gl).1.m_loadedTextures ≤
        st.m_loadedTextures + calls.length := by
  induction calls with
  | nil => intro st gl; exact Nat.le_add_right _ 0
  | cons c rest ih =>
    intro st gl
    rcases c with ⟨filename, tag⟩
    simp only [runCreateCalls, List.length_cons]
    have h1 := createGLTexture_loaded_le (decode filename) tag st gl
    have h2 := ih (CreateGLTexture (decode filename) tag st gl).2.1
      (CreateGLTexture (decode filename) tag st gl).2.2
    omega

theorem runCreateCalls_length (decode : String → Option ImageData)
    (calls : List (String × String)) :
    ∀ (st : SceneManagerState) (gl : GLState),
      (runCreateCalls decode calls st gl).1.m_textureIDs.length =
        st.m_textureIDs.length := by
  induction calls with
  | nil => intro st gl; rfl
  | cons c rest ih =>
    intro st gl
    rcases c with ⟨filename, tag⟩
    simp only [runCreateCalls]
    rw [ih, createGLTexture_length]

theorem glmRadians_zero : glmRadians 0 = 0 := by
  simp [glmRadians]

theorem glmRotateX_zero : glmRotateX (glmRadians 0) = 1 := by
  rw [glmRadians_zero]
  ext i j
  fin_cases i <;> fin_cases j <;>
    simp [glmRotateX, Matrix.one_apply, Matrix.vecHead, Matrix.vecTail]

theorem glmRotateY_zero : glmRotateY (glmRadians 0) = 1 := by
  rw [glmRadians_zero]
  ext i j
  fin_cases i <;> fin_cases j <;>
    simp [glmRotateY, Matrix.one_apply, Matrix.vecHead, Matrix.vecTail]

theorem glmRotateZ_zero : glmRotateZ (glmRadians 0) = 1 := by
  rw [glmRadians_zero]
  ext i j
  fin_cases i <;> fin_cases j <;>
    simp [glmRotateZ, Matrix.one_apply, Matrix.vecHead, Matrix.vecTail]

theorem glmScale_one : glmScale ⟨1, 1, 1⟩ = 1 := by
  ext i j
  fin_cases i <;> fin_cases j <;>
    simp [glmScale, Matrix.one_apply, Matrix.vecHead, Matrix.vecTail]

theorem glmTranslate_zero : glmTranslate ⟨0, 0, 0⟩ = 1 := by
  ext i j
  fin_cases i <;> fin_cases j <;>
    simp [glmTranslate, Matrix.one_apply, Matrix.vecHead, Matrix.vecTail]

theorem executeCommand_state (st : SceneManagerState) (c : SceneCommand) :
    (executeCommand st c).2 = st := by
  cases c with
  | transform s xr yr zr p => rfl
  | color r g b a => rfl
  | texture tag => rfl
  | uvScale u v => rfl
  | material tag =>
    simp only [executeCommand, SetShaderMaterial]
    split
    · split <;> rfl
    · rfl
  | draw m => rfl

theorem executeScript_state (cmds : List SceneCommand) :
    ∀ st : SceneManagerState, (executeScript st cmds).2 = st := by
  induction cmds with
  | nil => intro st; rfl
  | cons c rest ih =>
    intro st
    show (executeScript (executeCommand st c).2 rest).2 = st
    rw [ih, executeCommand_state]

/-! Theorems for the claims. -/

/-- C2: `SetTransformations` uploads, as the `"model"` uniform, the matrix
`Translate * RotateX * RotateY * RotateZ * Scale`; with unit scale and zero
rotation the model matrix is the pure translation by the position, and
with scale `(2,1,1)`, zero rotation and zero position it maps the
homogeneous point `(1,0,0,1)` to `(2,0,0,1)`. -/
theorem setTransformations_model_matrix (scaleXYZ : Vec3)
    (XrotationDegrees YrotationDegrees ZrotationDegrees : ℝ)
    (positionXYZ p : Vec3) (st : SceneManagerState) :
    SetTransformations scaleXYZ XrotationDegrees YrotationDegrees
        ZrotationDegrees positionXYZ st =
      ([UniformEvent.setMat4Value g_ModelName
        (glmTranslate positionXYZ *
          glmRotateX (glmRadians XrotationDegrees) *
          glmRotateY (glmRadians YrotationDegrees) *
          glmRotateZ (glmRadians ZrotationDegrees) *
          glmScale scaleXYZ)], st) ∧
    modelMatrix ⟨1, 1, 1⟩ 0 0 0 p = glmTranslate p ∧
    (modelMatrix ⟨2, 1, 1⟩ 0 0 0 ⟨0, 0, 0⟩).mulVec ![1, 0, 0, 1] =
      ![2, 0, 0, 1] := by
  refine ⟨rfl, ?_, ?_⟩
  · unfold modelMatrix
    rw [glmRotateX_zero, glmRotateY_zero, glmRotateZ_zero, glmScale_one]
    simp
  · unfold modelMatrix
    rw [glmRotateX_zero, glmRotateY_zero, glmRotateZ_zero,
      glmTranslate_zero]
    simp only [one_mul, mul_one]
    funext i
    fin_cases i <;>
      simp [Matrix.mulVec, Matrix.dotProduct, Fin.sum_univ_four,
        glmScale, Matrix.vecHead, Matrix.vecTail]

/-- C7: replaying the fixed render sequence leaves the registries exactly
as they were, and a second replay produces the identical uniform-upload
trace. -/
theorem renderScene_deterministic (st : SceneManagerState) :
    (RenderScene st).2 = st ∧
    (RenderScene (RenderScene st).2).1 = (RenderScene st).1 := by
  have h : (RenderScene st).2 = st := executeScript_state renderSceneScript st
  exact ⟨h, by rw [h]⟩

/-- C3: when the decoded image has a channel count other than 3 and 4,
`CreateGLTexture` returns `false` and the registry (both the
loaded-texture counter and every slot) is exactly what it was. -/
theorem createGLTexture_bad_channels (img : ImageData) (tag : String)
    (st : SceneManagerState) (gl : GLState)
    (h3 : img.channels ≠ 3) (h4 : img.channels ≠ 4) :
    (CreateGLTexture (some img) tag st gl).1 = false ∧
    (CreateGLTexture (some img) tag st gl).2.1 = st := by
  simp [CreateGLTexture, h3, h4]

/-- Witness for the bad-channel theorem at a concrete 2-channel image and
the constructor state. -/
theorem createGLTexture_bad_channels_witness :
    (ImageData.mk 8 8 2).channels ≠ 3 ∧ (ImageData.mk 8 8 2).channels ≠ 4 ∧
    ((CreateGLTexture (some (ImageData.mk 8 8 2)) "pad"
        initialSceneManagerState initialGLState).1 = false ∧
      (CreateGLTexture (some (ImageData.mk 8 8 2)) "pad"
        initialSceneManagerState initialGLState).2.1 =
        initialSceneManagerState) :=
  ⟨by decide, by decide,
    createGLTexture_bad_channels (ImageData.mk 8 8 2) "pad"
      initialSceneManagerState initialGLState (by decide) (by decide)⟩

/-- C4: after a successful load of a 3- or 4-channel image under a tag
(into a registry whose scanned slots all hold real texture names),
`FindTextureID` on that tag does not return the `-1` sentinel and
`FindTextureSlot` returns an index in `[0, m_loadedTextures)`. -/
theorem createGLTexture_then_find (st : SceneManagerState) (gl : GLState)
    (img : ImageData) (tag : String)
    (hch : img.channels = 3 ∨ img.channels = 4)
    (hcount : st.m_loadedTextures < st.m_textureIDs.length)
    (hall : ∀ e ∈ st.m_textureIDs.take st.m_loadedTextures, 1 ≤ e.ID) :
    (CreateGLTexture (some img) tag st gl).1 = true ∧
    FindTextureID (CreateGLTexture (some img) tag st gl).2.1 tag ≠ -1 ∧
    0 ≤ FindTextureSlot (CreateGLTexture (some img) tag st gl).2.1 tag ∧
    FindTextureSlot (CreateGLTexture (some img) tag st gl).2.1 tag <
      ((CreateGLTexture (some img) tag st gl).2.1.m_loadedTextures : Int) := by
  have hres : CreateGLTexture (some img) tag st gl =
      (true,
        { st with
          m_textureIDs :=
            setTextureEntry st.m_textureIDs st.m_loadedTextures tag
              ((gl.lastTextureName + 1 : Nat) : Int)
          m_loadedTextures := st.m_loadedTextures + 1 },
        ⟨gl.lastTextureName + 1⟩) := by
    simp [CreateGLTexture, glGenTextures, hch]
  have hfront :
      (setTextureEntry st.m_textureIDs st.m_loadedTextures tag
          ((gl.lastTextureName + 1 : Nat) : Int)).take
        (st.m_loadedTextures + 1) =
      st.m_textureIDs.take st.m_loadedTextures ++
        [{ tag := tag, ID := ((gl.lastTextureName + 1 : Nat) : Int) }] :=
    take_set_succ st.m_textureIDs st.m_loadedTextures _ hcount
  have hall2 : ∀ e ∈ st.m_textureIDs.take st.m_loadedTextures ++
      [{ tag := tag, ID := ((gl.lastTextureName + 1 : Nat) : Int) }],
      1 ≤ e.ID := by
    intro e he
    rcases List.mem_append.mp he with he1 | he2
    · exact hall e he1
    · rcases List.mem_singleton.mp he2 with rfl
      show (1 : Int) ≤ ((gl.lastTextureName + 1 : Nat) : Int)
      exact_mod_cast Nat.succ_le_succ (Nat.zero_le _)
  have hex : ∃ e ∈ st.m_textureIDs.take st.m_loadedTextures ++
      [{ tag := tag, ID := ((gl.lastTextureName + 1 : Nat) : Int) }],
      e.tag = tag := by
    refine ⟨TEXTURE_ID.mk tag ((gl.lastTextureName + 1 : Nat) : Int),
      List.mem_append_right _ (List.mem_singleton.mpr rfl), rfl⟩
  refine ⟨by rw [hres], ?_, ?_, ?_⟩
  · rw [hres]
    unfold FindTextureID
    simp only [hfront]
    have := findTextureIDLoop_pos _ tag hall2 hex
    omega
  · rw [hres]
    unfold FindTextureSlot
    simp only [hfront]
    have := (findTextureSlotLoop_bounds _ tag 0 hex).1
    simpa using this
  · rw [hres]
    unfold FindTextureSlot
    simp only [hfront]
    have hb := (findTextureSlotLoop_bounds _ tag 0 hex).2
    have hlen : (st.m_textureIDs.take st.m_loadedTextures ++
        [TEXTURE_ID.mk tag ((gl.lastTextureName + 1 : Nat) : Int)]).length =
        st.m_loadedTextures + 1 := by
      simp [List.length_take]
      omega
    rw [hlen] at hb
    simpa using hb

/-- Witness for the load-then-find theorem: a 4-channel image loaded under
the tag `"wood"` into the constructor state. -/
theorem createGLTexture_then_find_witness :
    ((ImageData.mk 64 64 4).channels = 3 ∨
      (ImageData.mk 64 64 4).channels = 4) ∧
    initialSceneManagerState.m_loadedTextures <
      initialSceneManagerState.m_textureIDs.length ∧
    (∀ e ∈ initialSceneManagerState.m_textureIDs.take
        initialSceneManagerState.m_loadedTextures, 1 ≤ e.ID) ∧
    ((CreateGLTexture (some (ImageData.mk 64 64 4)) "wood"
        initialSceneManagerState initialGLState).1 = true ∧
      FindTextureID (CreateGLTexture (some (ImageData.mk 64 64 4)) "wood"
        initialSceneManagerState initialGLState).2.1 "wood" ≠ -1 ∧
      0 ≤ FindTextureSlot (CreateGLTexture (some (ImageData.mk 64 64 4))
        "wood" initialSceneManagerState initialGLState).2.1 "wood" ∧
      FindTextureSlot (CreateGLTexture (some (ImageData.mk 64 64 4)) "wood"
        initialSceneManagerState initialGLState).2.1 "wood" <
        ((CreateGLTexture (some (ImageData.mk 64 64 4)) "wood"
          initialSceneManagerState initialGLState).2.1.m_loadedTextures :
          Int)) :=
  ⟨by decide, by decide, by decide,
    createGLTexture_then_find initialSceneManagerState initialGLState
      (ImageData.mk 64 64 4) "wood" (by decide) (by decide) (by decide)⟩

/-- C1: `FindMaterial` reports not-found on an empty registry and leaves
the out-parameter unmutated; on any registry the found flag equals
non-emptiness of the registry, independent of whether the tag matches. -/
theorem findMaterial_found_iff_nonempty (tag : String)
    (material : OBJECT_MATERIAL) (materials : List OBJECT_MATERIAL) :
    FindMaterial [] tag material = (false, material) ∧
    (FindMaterial materials tag material).1 = !materials.isEmpty := by
  refine ⟨rfl, ?_⟩
  cases materials <;> simp [FindMaterial]

/-- C6: appending two material entries with the same tag to a registry that
does not contain the tag, then looking the tag up, copies the FIRST
entry's five property fields into the out-parameter — the second
definition is never observable. -/
theorem findMaterial_first_match_wins (materials : List OBJECT_MATERIAL)
    (tag : String) (A B material : OBJECT_MATERIAL)
    (hnone : ∀ m ∈ materials, m.tag ≠ tag)
    (hA : A.tag = tag) (hB : B.tag = tag) :
    FindMaterial ((materials ++ [A]) ++ [B]) tag material =
      (true,
       { material with
         ambientColor := A.ambientColor
         ambientStrength := A.ambientStrength
         diffuseColor := A.diffuseColor
         specularColor := A.specularColor
         shininess := A.shininess }) := by
  have hlen : ((materials ++ [A]) ++ [B]).length ≠ 0 := by simp
  unfold FindMaterial
  rw [if_neg hlen, List.append_assoc]
  rw [findMaterialLoop_append_of_no_match materials ([A] ++ [B]) tag
    material hnone]
  simp [findMaterialLoop, hA]

/-- Witness for the first-match-wins theorem at concrete duplicate
definitions of the tag `"dup"` over the empty registry. -/
theorem findMaterial_first_match_wins_witness :
    (∀ m ∈ ([] : List OBJECT_MATERIAL), m.tag ≠ "dup") ∧
    sampleMaterialA.tag = "dup" ∧ sampleMaterialB.tag = "dup" ∧
    FindMaterial (([] ++ [sampleMaterialA]) ++ [sampleMaterialB]) "dup"
        defaultObjectMaterial =
      (true,
       { defaultObjectMaterial with
         ambientColor := sampleMaterialA.ambientColor
         ambientStrength := sampleMaterialA.ambientStrength
         diffuseColor := sampleMaterialA.diffuseColor
         specularColor := sampleMaterialA.specularColor
         shininess := sampleMaterialA.shininess }) :=
  ⟨by simp, rfl, rfl,
    findMaterial_first_match_wins [] "dup" sampleMaterialA sampleMaterialB
      defaultObjectMaterial (by simp) rfl rfl⟩

/-- C5: `BindGLTextures` issues one bind call per registered entry: the
call list has length `m_loadedTextures`, its `i`-th element binds the name
stored in slot `i` to texture unit `i`, and every unit it touches is below
`m_loadedTextures`. -/
theorem bindGLTextures_units (st : SceneManagerState) :
    (BindGLTextures st).length = st.m_loadedTextures ∧
    (∀ i, i < st.m_loadedTextures →
      (BindGLTextures st).getD i (0, 0) =
        (i, (st.m_textureIDs.getD i { tag := "", ID := -1 }).ID)) ∧
    (∀ p ∈ BindGLTextures st, p.1 < st.m_loadedTextures) := by
  refine ⟨by simp [BindGLTextures], ?_, ?_⟩
  · intro i hi
    have hsome : (BindGLTextures st)[i]? =
        some (i, (st.m_textureIDs.getD i { tag := "", ID := -1 }).ID) := by
      unfold BindGLTextures
      rw [List.getElem?_map, List.getElem?_range hi]
      rfl
    simp [List.getD, hsome]
  · intro p hp
    rcases List.mem_map.mp hp with ⟨i, hi, rfl⟩
    simpa using List.mem_range.mp hi

/-- C8: `DestroyGLTextures` issues exactly one `glGenTextures` call per
registered entry — overwriting each stored name with a freshly allocated
one — and never issues a `glDeleteTextures` call, so no previously
allocated texture name is released. -/
theorem destroyGLTextures_regenerates (st : SceneManagerState)
    (gl : GLState) (h : st.m_loadedTextures ≤ st.m_textureIDs.length) :
    (DestroyGLTextures st gl).2.2 =
      (List.range st.m_loadedTextures).map
        (fun k => GLCall.genTextures (gl.lastTextureName + k + 1)) ∧
    (DestroyGLTextures st gl).2.2.length = st.m_loadedTextures ∧
    (∀ c ∈ (DestroyGLTextures st gl).2.2,
      ∀ name : Int, c ≠ GLCall.deleteTextures name) ∧
    (∀ k, k < st.m_loadedTextures →
      ((DestroyGLTextures st gl).1.m_textureIDs.getD k ⟨"", -1⟩).ID =
        ((gl.lastTextureName + k + 1 : Nat) : Int)) := by
  unfold DestroyGLTextures
  have htrace := destroyLoop_trace st.m_loadedTextures 0 st gl
  refine ⟨htrace, by rw [htrace]; simp, ?_, ?_⟩
  · intro c hc name
    rw [htrace] at hc
    rcases List.mem_map.mp hc with ⟨k, _, rfl⟩
    intro hcontra
    exact GLCall.noConfusion hcontra
  · intro k hk
    have := destroyLoop_getD_fresh st.m_loadedTextures 0 st gl k hk
      (by omega)
    simpa using this

/-- Witness for the teardown theorem at a concrete two-entry registry with
allocator counter 10: the trace is two generation calls (names 11 and 12)
and no deletion call. -/
theorem destroyGLTextures_regenerates_witness :
    sampleTextureState.m_loadedTextures ≤
      sampleTextureState.m_textureIDs.length ∧
    ((DestroyGLTextures sampleTextureState ⟨10⟩).2.2 =
      (List.range sampleTextureState.m_loadedTextures).map
        (fun k => GLCall.genTextures ((10 : Nat) + k + 1)) ∧
    (DestroyGLTextures sampleTextureState ⟨10⟩).2.2.length =
      sampleTextureState.m_loadedTextures ∧
    (∀ c ∈ (DestroyGLTextures sampleTextureState ⟨10⟩).2.2,
      ∀ name : Int, c ≠ GLCall.deleteTextures name) ∧
    (∀ k, k < sampleTextureState.m_loadedTextures →
      ((DestroyGLTextures sampleTextureState ⟨10⟩).1.m_textureIDs.getD k
          ⟨"", -1⟩).ID = (((10 : Nat) + k + 1 : Nat) : Int))) :=
  ⟨by decide, destroyGLTextures_regenerates sampleTextureState ⟨10⟩
    (by decide)⟩

/-- Witness for the binding theorem at a concrete two-entry registry. -/
theorem bindGLTextures_units_witness :
    (BindGLTextures sampleTextureState).length =
      sampleTextureState.m_loadedTextures ∧
    (∀ i, i < sampleTextureState.m_loadedTextures →
      (BindGLTextures sampleTextureState).getD i (0, 0) =
        (i, (sampleTextureState.m_textureIDs.getD i
          { tag := "", ID := -1 }).ID)) ∧
    (∀ p ∈ BindGLTextures sampleTextureState,
      p.1 < sampleTextureState.m_loadedTextures) :=
  bindGLTextures_units sampleTextureState

/-- C10: the fixed `LoadSceneTextures` call sequence issues exactly sixteen
texture load calls; run from the constructor state with any decode
outcomes, the loaded-texture counter never exceeds 16 (after any prefix of
`k` calls it is at most `k` and at most 16, so each load's registry write
targets a slot index below 16) and the 16-entry texture table keeps its
length. -/
theorem loadSceneTextures_bounded :
    loadSceneTexturesCallList.length = 16 ∧
    ∀ decode : String → Option ImageData,
      (LoadSceneTextures decode initialSceneManagerState
        initialGLState).1.m_loadedTextures ≤ 16 ∧
      (LoadSceneTextures decode initialSceneManagerState
        initialGLState).1.m_textureIDs.length = 16 ∧
      ∀ k : Nat,
        (runCreateCalls decode (loadSceneTexturesCallList.take k)
          initialSceneManagerState initialGLState).1.m_loadedTextures ≤ k ∧
        (runCreateCalls decode (loadSceneTexturesCallList.take k)
          initialSceneManagerState initialGLState).1.m_loadedTextures ≤
          16 := by
  refine ⟨rfl, fun decode => ⟨?_, ?_, fun k => ⟨?_, ?_⟩⟩⟩
  · have := runCreateCalls_loaded_le decode loadSceneTexturesCallList
      initialSceneManagerState initialGLState
    simpa [LoadSceneTextures, initialSceneManagerState] using this
  · have := runCreateCalls_length decode loadSceneTexturesCallList
      initialSceneManagerState initialGLState
    simpa [LoadSceneTextures, initialSceneManagerState] using this
  · have := runCreateCalls_loaded_le decode
      (loadSceneTexturesCallList.take k) initialSceneManagerState
      initialGLState
    have hlen : (loadSceneTexturesCallList.take k).length ≤ k :=
      le_trans (List.length_take_le k loadSceneTexturesCallList) (le_refl k)
    have h0 : initialSceneManagerState.m_loadedTextures = 0 := rfl
    omega
  · have := runCreateCalls_loaded_le decode
      (loadSceneTexturesCallList.take k) initialSceneManagerState
      initialGLState
    have hlen : (loadSceneTexturesCallList.take k).length ≤
        loadSceneTexturesCallList.length :=
      List.length_take_le' k loadSceneTexturesCallList
    have hfull : loadSceneTexturesCallList.length = 16 := rfl
    have h0 : initialSceneManagerState.m_loadedTextures = 0 := rfl
    omega

/-- C9: after `DefineObjectMaterials` runs on an empty registry the
material list holds exactly the four tags `"metal"`, `"wood"`, `"walls"`,
`"plastic"` in insertion order; no entry is tagged `"glass"` (the glass
record is built with tag `"glass"` but never appended), the scan for
`"glass"` copies nothing into the out-parameter, and the glass render pass
requests exactly the material tag `"glass"` (twice). -/
theorem defineObjectMaterials_contents :
    (DefineObjectMaterials []).map OBJECT_MATERIAL.tag =
      ["metal", "wood", "walls", "plastic"] ∧
    (DefineObjectMaterials []).length = 4 ∧
    ((DefineObjectMaterials []).all (fun m => m.tag != "glass")) = true ∧
    glassMaterial.tag = "glass" ∧
    (∀ material, findMaterialLoop (DefineObjectMaterials []) "glass"
      material = material) ∧
    materialRequests renderGlassScript = ["glass", "glass"] := by
  refine ⟨rfl, rfl, rfl, rfl, ?_, rfl⟩
  intro material
  rfl
